import Mathlib

/-!
Verification of the DB-GPT plan/dependency/execution scheduler core.

Shallow embedding of:
- `src/dbgpt/serve/agent/db/gpts_plans_db.py` (`GptsPlansDao`, `GptsPlansEntity`)
- `src/pilot/dbgpts/memory/default_gpts_memory.py` (`DefaultGptsPlansMemory`)
- `src/dbgpt/agent/agents/planner_agent.py` (`PlannerAgent._a_planning`)
- `src/dbgpt/agent/agents/planning_group_chat.py` (`PlanChat`, `PlanChatManager`)

Stores are embedded as lists of rows kept in insertion order; SQLAlchemy /
pandas queries become list filters and maps.  Python calls that raise are
embedded as explicit error results.  Timestamp columns (`created_at`,
`updated_at`) are omitted: wall-clock time is outside the embedding.
-/

/-- Modelled from the spec: the `Status` enum (`dbgpt.agent.common.schema`)
is imported by the scheduler sources but its definition is not among the
provided files.  The spec, section 3, gives the status set
{TODO, RUNNING, RETRYING, COMPLETE, FAILED}; the in-memory backend's literal
query `state=='todo'` fixes the lower-case string representation. -/
def Status.TODO : String := "todo"

/-- Modelled from the spec: see `Status.TODO`. -/
def Status.RUNNING : String := "running"

/-- Modelled from the spec: see `Status.TODO`. -/
def Status.RETRYING : String := "retrying"

/-- Modelled from the spec: see `Status.TODO`. -/
def Status.COMPLETE : String := "complete"

/-- Modelled from the spec: see `Status.TODO`. -/
def Status.FAILED : String := "failed"

/-- Row of the `gpts_plans` table (`GptsPlansEntity` in
`src/dbgpt/serve/agent/db/gpts_plans_db.py`).  `sub_task_num` is an Integer
column; nullable String columns are `Option String`.  The `created_at` and
`updated_at` timestamp columns are omitted (real time is out of scope). -/
structure GptsPlansEntity where
  id : Nat := 0
  conv_id : String := ""
  sub_task_num : Nat := 0
  sub_task_title : String := ""
  sub_task_content : String := ""
  sub_task_agent : Option String := none
  resource_name : Option String := none
  rely : Option String := none
  agent_model : Option String := none
  retry_times : Nat := 0
  max_retry_times : Nat := 0
  state : Option String := none
  result : Option String := none
  deriving DecidableEq, Repr

/-- `GptsPlansDao.get_by_conv_id`: the conversation filter is applied only
when `conv_id` is truthy (`if conv_id:`); a falsy id (empty string / None,
embedded as `""`) skips the filter and every row is returned. -/
def GptsPlansDao.get_by_conv_id (store : List GptsPlansEntity)
    (conv_id : String) : List GptsPlansEntity :=
  if conv_id = "" then store
  else store.filter (fun r => r.conv_id == conv_id)

/-- `GptsPlansDao.get_by_conv_id_and_num`: both the conversation filter and
the `sub_task_num.in_(task_nums)` filter are applied only when `conv_id` is
truthy; a falsy id skips both and every row is returned. -/
def GptsPlansDao.get_by_conv_id_and_num (store : List GptsPlansEntity)
    (conv_id : String) (task_nums : List Nat) : List GptsPlansEntity :=
  if conv_id = "" then store
  else store.filter
    (fun r => r.conv_id == conv_id && task_nums.contains r.sub_task_num)

/-- `GptsPlansDao.get_todo_plans`.  For falsy `conv_id` the source returns
`[]` early.  For a truthy id the filter expression evaluates
`GptsPlansEntity.state.in_(Status.TODO.value, Status.RETRYING.value)`:
SQLAlchemy's `ColumnOperators.in_` accepts a single iterable argument, so
this call with two positional arguments raises `TypeError` while the filter
is being built, before any query runs.  The fallible call is embedded as an
`Except` error. -/
def GptsPlansDao.get_todo_plans (_store : List GptsPlansEntity)
    (conv_id : String) : Except String (List GptsPlansEntity) :=
  if conv_id = "" then Except.ok []
  else Except.error "TypeError: in_ expected 1 argument, got 2"

/-- `GptsPlansDao.update_task`: a bulk `UPDATE` setting exactly the
`state`, `sub_task_agent`, `agent_model`, `retry_times` and `result`
columns of every row matching `(conv_id, sub_task_num)`; note that the
sixth positional argument of the Python method binds to the `model`
parameter and the seventh to `result`. -/
def GptsPlansDao.update_task (store : List GptsPlansEntity)
    (conv_id : String) (task_num : Nat) (state : String) (retry_times : Nat)
    (agent : Option String) (model : Option String) (result : Option String) :
    List GptsPlansEntity :=
  store.map fun r =>
    if r.conv_id = conv_id ∧ r.sub_task_num = task_num then
      { r with state := some state, sub_task_agent := agent,
               agent_model := model, retry_times := retry_times,
               result := result }
    else r

/-- `GptsPlansDao.complete_task`: sets `state := COMPLETE` and `result` on
every row matching `(conv_id, sub_task_num)`. -/
def GptsPlansDao.complete_task (store : List GptsPlansEntity)
    (conv_id : String) (task_num : Nat) (result : String) :
    List GptsPlansEntity :=
  store.map fun r =>
    if r.conv_id = conv_id ∧ r.sub_task_num = task_num then
      { r with state := some Status.COMPLETE, result := some result }
    else r

/-- `GptsPlansDao.remove_by_conv_id`: deletes every row of the
conversation (the `conv_id is None` guard is inexpressible for a plain
`String` id and is dropped). -/
def GptsPlansDao.remove_by_conv_id (store : List GptsPlansEntity)
    (conv_id : String) : List GptsPlansEntity :=
  store.filter (fun r => r.conv_id != conv_id)

/-- `GptsPlansDao.batch_save`: `bulk_insert_mappings` appends the new rows. -/
def GptsPlansDao.batch_save (store plans : List GptsPlansEntity) :
    List GptsPlansEntity :=
  store ++ plans

/-- Modelled from the spec: the `GptsPlan` dataclass
(`dbgpt.agent.memory.gpts_memory`) used by the planner and scheduler is not
among the provided files.  Fields follow the spec's Subtask data model
(section 3) with the source's field names (as read and written by
`planner_agent.py` and `planning_group_chat.py`); the planner stores field
values straight from `dict.get`, so String-valued fields that may be absent
are `Option String`, and the single status field is named `state` as in
both in-src backends. -/
structure GptsPlan where
  conv_id : String := ""
  sub_task_num : Option String := none
  sub_task_title : Option String := none
  sub_task_content : Option String := none
  sub_task_agent : Option String := none
  resource_name : Option String := none
  rely : Option String := none
  agent_model : Option String := none
  retry_times : Nat := 0
  max_retry_times : Nat := 0
  state : Option String := none
  result : Option String := none
  deriving DecidableEq, Repr

/-- `DefaultGptsPlansMemory.get_todo_plans`
(`src/pilot/dbgpts/memory/default_gpts_memory.py`): the pandas query
`conv_id=='{conv_id}' and state=='todo'` selects only rows whose state is
the literal `'todo'` (RETRYING rows are not selected) and preserves the
data-frame's insertion order (no sort). -/
def DefaultGptsPlansMemory.get_todo_plans (store : List GptsPlan)
    (conv_id : String) : List GptsPlan :=
  store.filter (fun p => p.conv_id == conv_id && p.state == some "todo")

/-- `DefaultGptsPlansMemory.update_task`: the pandas `.loc` assignment sets
exactly the `state`, `retry_times`, `sub_task_agent` and `agent_model`
columns of rows matching `(conv_id, sub_task_num)`; the method has no
`result` parameter and never writes the `result` column. -/
def DefaultGptsPlansMemory.update_task (store : List GptsPlan)
    (conv_id : String) (task_num : Option String) (state : String)
    (retry_times : Nat) (agent : Option String) (model : Option String) :
    List GptsPlan :=
  store.map fun p =>
    if p.conv_id = conv_id ∧ p.sub_task_num = task_num then
      { p with state := some state, retry_times := retry_times,
               sub_task_agent := agent, agent_model := model }
    else p

/-- C10: `get_by_conv_id` / `get_by_conv_id_and_num` with a falsy
conversation id (embedded as `""`) skip the conversation filter and return
every stored row, of every conversation; for a truthy id every returned row
belongs to that conversation. -/
theorem c10_falsy_conv_id_unscoped (store : List GptsPlansEntity)
    (nums : List Nat) (c : String) :
    GptsPlansDao.get_by_conv_id store "" = store ∧
    GptsPlansDao.get_by_conv_id_and_num store "" nums = store ∧
    (c ≠ "" → ∀ r ∈ GptsPlansDao.get_by_conv_id store c, r.conv_id = c) := by
  refine ⟨rfl, rfl, fun hc r hr => ?_⟩
  unfold GptsPlansDao.get_by_conv_id at hr
  rw [if_neg hc] at hr
  have := (List.mem_filter.mp hr).2
  simpa using this

/-- C10 witness: on a concrete two-conversation store, a falsy id returns
both rows and a truthy id's rows all carry that id. -/
theorem c10_falsy_conv_id_unscoped_witness :
    GptsPlansDao.get_by_conv_id
      [{ conv_id := "a" }, { conv_id := "b" }] "" =
      [{ conv_id := "a" }, { conv_id := "b" }] ∧
    (∀ r ∈ GptsPlansDao.get_by_conv_id
      [({ conv_id := "a" } : GptsPlansEntity), { conv_id := "b" }] "a",
      r.conv_id = "a") :=
  ⟨(c10_falsy_conv_id_unscoped [{ conv_id := "a" }, { conv_id := "b" }] [] "a").1,
   (c10_falsy_conv_id_unscoped [{ conv_id := "a" }, { conv_id := "b" }] [] "a").2.2
     (by decide)⟩

/-- C2: the SQL-backed `get_todo_plans` raises `TypeError` for every truthy
conversation id (its filter calls `in_` with two positional arguments), and
the in-memory backend returns only rows in state `'todo'`, omitting a
`'retrying'` row — neither backend implements "status in {TODO, RETRYING}
ordered by taskNumber". -/
theorem c2_get_todo_plans_bug :
    GptsPlansDao.get_todo_plans
      [{ conv_id := "conv_1", sub_task_num := 1, state := some "todo" }]
      "conv_1" = Except.error "TypeError: in_ expected 1 argument, got 2" ∧
    DefaultGptsPlansMemory.get_todo_plans
      [{ conv_id := "c", sub_task_num := some "1", state := some "retrying" },
       { conv_id := "c", sub_task_num := some "2", state := some "todo" }]
      "c" =
      [{ conv_id := "c", sub_task_num := some "2", state := some "todo" }] := by
  constructor
  · rfl
  · rfl

/-- One item of the planner's JSON array as consumed by
`PlannerAgent._a_planning` via `item.get(...)`: each field is `Option`
because `dict.get` returns `None` for a missing key. -/
structure PlanItem where
  serial_number : Option String := none
  content : Option String := none
  agent : Option String := none
  rely : Option String := none
  resource : Option String := none
  deriving DecidableEq, Repr

/-- An element of the scanned JSON array: either a JSON object (mapped via
`item.get`) or any other JSON value, on which `item.get` raises
`AttributeError` (caught by the conversion `try`/`except`). -/
inductive JsonItem where
  | obj (p : PlanItem)
  | nonObj
  deriving DecidableEq, Repr

/-- A top-level JSON value found by `find_json_objects` (an external
utility): either an array of items, or a non-array value whose iteration in
the conversion loop fails. -/
inductive JsonTop where
  | arr (items : List JsonItem)
  | nonArr
  deriving DecidableEq, Repr

/-- The planner's reply dict `{"is_exe_success": ..., "content": ...}`
(the `view` field always equals `content` and is omitted). -/
structure PlanReply where
  is_exe_success : Bool
  content : String
  deriving DecidableEq, Repr

/-- The fixed prefix of `fail_reason` in `PlannerAgent._a_planning`. -/
def failPrefix : String :=
  "Please recheck your answer，no usable plans generated in correct format，"

/-- The conversion-failure text appended to `fail_reason` (the trailing
`str(e)` exception text is not reproduced). -/
def convErrPrefix : String :=
  "Return json structure error and cannot be converted to a usable plan，"

/-- The `GptsPlan` built from one JSON item in `_a_planning`'s conversion
loop: `sub_task_num := serial_number`, `sub_task_content` and
`sub_task_title` both from `content`, `sub_task_agent := agent`,
`rely := rely`, `resource_name := resource`, `retry_times := 0`,
`max_retry_times` from the agent context, status `TODO`. -/
def mkPlan (convId : String) (maxRetry : Nat) (it : PlanItem) : GptsPlan :=
  { conv_id := convId
    sub_task_num := it.serial_number
    sub_task_title := it.content
    sub_task_content := it.content
    sub_task_agent := it.agent
    resource_name := it.resource
    rely := it.rely
    retry_times := 0
    max_retry_times := maxRetry
    state := some Status.TODO }

/-- The conversion loop of `_a_planning`: maps every JSON object to a
`GptsPlan`; a non-object item raises and the whole conversion fails
(`none`). -/
def convertItems (convId : String) (maxRetry : Nat) :
    List JsonItem → Option (List GptsPlan)
  | [] => some []
  | JsonItem.obj p :: rest =>
      (convertItems convId maxRetry rest).map (fun l => mkPlan convId maxRetry p :: l)
  | JsonItem.nonObj :: _ => none

/-- `str(item.get('content'))` as used by the success-reply summary:
Python renders a missing key as `"None"`. -/
def itemContentStr : JsonItem → String
  | JsonItem.obj p => p.content.getD "None"
  | JsonItem.nonObj => "None"

/-- The planner's success reply content:
`".\n".join("{},{}".format(index + 1, item.get('content')) ...)`. -/
def numberedSummary (items : List JsonItem) : String :=
  String.intercalate ".\n"
    (items.enum.map (fun e => toString (e.1 + 1) ++ "," ++ itemContentStr e.2))

/-- Modelled from the spec: the memory-layer `remove_by_conv_id` used by
`_a_planning` (the `GptsMemory` plan store is not among the provided
files); per spec section 4.1, `deleteAll(id)` removes every subtask of the
conversation, exactly as `GptsPlansDao.remove_by_conv_id` does. -/
def plansRemoveByConvId (store : List GptsPlan) (convId : String) :
    List GptsPlan :=
  store.filter (fun p => p.conv_id != convId)

/-- `PlannerAgent._a_planning` after the model call and
`find_json_objects` (both external): takes the scanned JSON values and the
current plan store, and returns the reply dict together with the store
state after any mutation.  If the count of JSON values differs from one,
planning fails with the count message and the store is untouched.  With a
single array, every item is converted; on success the old plan of the
conversation is deleted and the new plans appended — but only when at least
one plan object was produced — and the reply content is the numbered
summary.  A conversion failure leaves the store untouched.  The function
always returns (exceptions are caught inside the source method). -/
def aPlanning (convId : String) (maxRetry : Nat) (jsonObjects : List JsonTop)
    (store : List GptsPlan) : PlanReply × List GptsPlan :=
  if jsonObjects.length ≠ 1 then
    (⟨false, failPrefix ++ "There are currently " ++
        toString jsonObjects.length ++ " json contents"⟩, store)
  else
    match jsonObjects with
    | JsonTop.arr items :: _ =>
      match convertItems convId maxRetry items with
      | some plans =>
        let newStore :=
          if 0 < plans.length then plansRemoveByConvId store convId ++ plans
          else store
        (⟨true, numberedSummary items⟩, newStore)
      | none => (⟨false, failPrefix ++ convErrPrefix⟩, store)
    | JsonTop.nonArr :: _ => (⟨false, failPrefix ++ convErrPrefix⟩, store)
    | [] => (⟨false, failPrefix⟩, store)

/-- C5: whenever the JSON scanner found a number of top-level JSON values
different from one, `_a_planning` returns a reply with
`is_exe_success = false` whose content is the failure reason, and the plan
store is left exactly as it was (no deletion, no insertion). -/
theorem c5_bad_json_count_no_mutation (convId : String) (maxRetry : Nat)
    (jsonObjects : List JsonTop) (store : List GptsPlan)
    (h : jsonObjects.length ≠ 1) :
    aPlanning convId maxRetry jsonObjects store =
      (⟨false, failPrefix ++ "There are currently " ++
          toString jsonObjects.length ++ " json contents"⟩, store) := by
  unfold aPlanning
  rw [if_pos h]

/-- C5 witness: a planner reply containing two JSON arrays fails with the
count message and leaves a concrete prior plan untouched. -/
theorem c5_bad_json_count_no_mutation_witness :
    aPlanning "c" 3 [JsonTop.arr [], JsonTop.arr []]
        [{ conv_id := "c", sub_task_num := some "1" }] =
      (⟨false, failPrefix ++ "There are currently 2 json contents"⟩,
       [{ conv_id := "c", sub_task_num := some "1" }]) :=
  c5_bad_json_count_no_mutation "c" 3 [JsonTop.arr [], JsonTop.arr []]
    [{ conv_id := "c", sub_task_num := some "1" }] (by decide)

/-- Helper: converting a list of well-formed JSON objects always succeeds
and yields the pointwise `mkPlan` images. -/
theorem convertItems_map_obj (convId : String) (maxRetry : Nat) :
    ∀ raw : List PlanItem,
      convertItems convId maxRetry (raw.map JsonItem.obj) =
        some (raw.map (mkPlan convId maxRetry)) := by
  intro raw
  induction raw with
  | nil => rfl
  | cons p rest ih => simp [convertItems, ih]

/-- C6 counterexample: a planner reply whose single well-formed JSON array
is empty takes the success path (`is_exe_success = true`, empty summary)
but the conversation's prior plan is NOT deleted: the old subtask is still
in the store afterwards, refuting "the conversation's existing plan is then
deleted before the new subtasks are bulk-inserted" as a statement about
every reply with exactly one well-formed array. -/
theorem c6_empty_array_keeps_old_plan :
    (aPlanning "c" 3 [JsonTop.arr []]
        [{ conv_id := "c", sub_task_num := some "9",
           state := some "complete" }]).1.is_exe_success = true ∧
    ({ conv_id := "c", sub_task_num := some "9",
       state := some "complete" } : GptsPlan) ∈
      (aPlanning "c" 3 [JsonTop.arr []]
        [{ conv_id := "c", sub_task_num := some "9",
           state := some "complete" }]).2 := by
  constructor
  · rfl
  · decide

/-- C6 (amended): for every planner reply containing exactly one
well-formed JSON array with at least one item, each item is mapped by
`mkPlan` — `sub_task_num = serial_number`, content and title both from
`content`, agent from `agent`, `rely` stored verbatim (split on comma only
at dispatch time), `retry_times = 0`, `max_retry_times` the configured
maximum, status TODO — the conversation's existing plan is deleted before
the new subtasks are appended, and the reply content is the numbered
summary of the items. -/
theorem c6_planning_success_replace (convId : String) (maxRetry : Nat)
    (raw : List PlanItem) (store : List GptsPlan) (hne : raw ≠ []) :
    aPlanning convId maxRetry [JsonTop.arr (raw.map JsonItem.obj)] store =
      (⟨true, numberedSummary (raw.map JsonItem.obj)⟩,
        plansRemoveByConvId store convId ++ raw.map (mkPlan convId maxRetry)) ∧
    ∀ it : PlanItem,
      (mkPlan convId maxRetry it).sub_task_num = it.serial_number ∧
      (mkPlan convId maxRetry it).sub_task_content = it.content ∧
      (mkPlan convId maxRetry it).sub_task_title = it.content ∧
      (mkPlan convId maxRetry it).sub_task_agent = it.agent ∧
      (mkPlan convId maxRetry it).rely = it.rely ∧
      (mkPlan convId maxRetry it).retry_times = 0 ∧
      (mkPlan convId maxRetry it).max_retry_times = maxRetry ∧
      (mkPlan convId maxRetry it).state = some Status.TODO := by
  constructor
  · simp only [aPlanning, convertItems_map_obj]
    simp
    intro h
    exact absurd h hne
  · intro it
    exact ⟨rfl, rfl, rfl, rfl, rfl, rfl, rfl, rfl⟩

/-- C6 witness: a concrete one-item plan replaces a concrete prior plan and
produces the numbered summary "1,do work". -/
theorem c6_planning_success_replace_witness :
    aPlanning "c" 3
        [JsonTop.arr [JsonItem.obj
          { serial_number := some "1", content := some "do work",
            agent := some "Worker", rely := some "" }]]
        [{ conv_id := "c", sub_task_num := some "9" }] =
      (⟨true, "1,do work"⟩,
        [mkPlan "c" 3
          { serial_number := some "1", content := some "do work",
            agent := some "Worker", rely := some "" }]) :=
  (c6_planning_success_replace "c" 3
    [{ serial_number := some "1", content := some "do work",
       agent := some "Worker", rely := some "" }]
    [{ conv_id := "c", sub_task_num := some "9" }] (by decide)).1

/-- A participant of `PlanChat`, carrying only the name (the description
and system message play no role in the selection algorithm). -/
structure ChatAgent where
  name : String
  deriving DecidableEq, Repr

/-- The `PlanChat` configuration relevant to speaker selection: the
registered agents in registration order and `allow_repeat_speaker`
(the default `speaker_selection_method` "auto" is the only path taken by
`a_select_speaker`). -/
structure PlanChatCfg where
  agents : List ChatAgent
  allow_repeat_speaker : Bool
  deriving DecidableEq, Repr

/-- Python `\w` (ASCII): a regex word character. -/
def isWordChar (c : Char) : Bool :=
  c.isAlphanum || c == '_'

/-- The padded text scanned by `_mentioned_agents`
(`" " + message_content + " "`), as characters. -/
def paddedChars (content : String) : List Char :=
  (" " ++ content ++ " ").toList

/-- One position of a `(?<=\W)name(?=\W)` regex match in the padded text:
`name` occurs at index `i`, preceded and followed by one non-word
character. -/
def mentionAt (name : List Char) (l : List Char) (i : Nat) : Bool :=
  decide (1 ≤ i) &&
  ((l.drop i).take name.length == name) &&
  !(isWordChar (l.getD (i - 1) ' ')) &&
  decide (i + name.length < l.length) &&
  !(isWordChar (l.getD (i + name.length) ' '))

/-- `_mentioned_agents` membership: the agent's name is found at least once
as a whole-word match in the padded reply text (the mentions dict keeps a
name exactly when its count is positive, so only positivity matters). -/
def isMentioned (name : String) (content : String) : Bool :=
  (List.range (paddedChars content).length).any
    (fun i => mentionAt name.toList (paddedChars content) i)

/-- The names of the agents, in registration order (`agent_names`). -/
def agentNames (agents : List ChatAgent) : List String :=
  agents.map (fun a => a.name)

/-- `PlanChat.next_agent`: round-robin successor of `agent` in
registration order, restricted to the allowed subset `agents`; `none` when
the Python loop falls through without returning. -/
def nextAgent (chat : PlanChatCfg) (lastSpeaker : String)
    (agents : List ChatAgent) : Option ChatAgent :=
  if agents = chat.agents then
    agents.get? (((agentNames chat.agents).indexOf lastSpeaker + 1) % agents.length)
  else
    let offset := (agentNames chat.agents).indexOf lastSpeaker + 1
    let n := chat.agents.length
    (List.range n).findSome? fun i =>
      match chat.agents.get? ((offset + i) % n) with
      | some a => if a ∈ agents then some a else none
      | none => none

/-- Outcome of `PlanChat.a_select_speaker`: a selected agent, an uncaught
Python exception, or a silent `None` return (the `next_agent` fall-through). -/
inductive SelectResult where
  | picked (a : ChatAgent)
  | raised (msg : String)
  | noneReturned
  deriving DecidableEq, Repr

/-- `PlanChat.a_select_speaker` after the model call (the reply text is an
external input; `none` embeds `final == False`, the model produced no
usable output).  The candidate set drops the last speaker when repeats are
disallowed.  With no model output, `next_agent` is returned.  Otherwise the
reply is scanned for candidate mentions; with exactly one distinct mention
`name` becomes that agent's name, else `name` stays the whole reply text.
`agent_by_name(name)` then looks `name` up in the FULL agent list; on a
miss it raises `ValueError`, and the `except` handler evaluates `str(e)`
with `e` unbound, so the call raises `NameError` instead of reaching its
`next_agent` fallback. -/
def aSelectSpeaker (chat : PlanChatCfg) (lastSpeaker : ChatAgent)
    (llmReply : Option String) : SelectResult :=
  let agents := if chat.allow_repeat_speaker then chat.agents
    else chat.agents.filter (fun a => a != lastSpeaker)
  match llmReply with
  | none =>
    match nextAgent chat lastSpeaker.name agents with
    | some a => SelectResult.picked a
    | none => SelectResult.noneReturned
  | some reply =>
    let mentions := agents.filter (fun a => isMentioned a.name reply)
    let name :=
      if mentions.length = 1 then
        match mentions.head? with
        | some a => a.name
        | none => reply
      else reply
    match chat.agents.find? (fun a => a.name == name) with
    | some a => SelectResult.picked a
    | none => SelectResult.raised "NameError: name 'e' is not defined"

/-- C7: with candidates ["Alpha","Beta"], a reply mentioning exactly Beta
selects Beta, and with no model output the round-robin successor of the
previous speaker (Alpha → Beta) is returned; but an ambiguous reply
mentioning both names does NOT fall back to round-robin: the `except`
handler of `agent_by_name` references the undefined variable `e`, so
selection raises `NameError`. -/
theorem c7_speaker_selection :
    aSelectSpeaker ⟨[⟨"Alpha"⟩, ⟨"Beta"⟩], true⟩ ⟨"Alpha"⟩
        (some "I choose Beta for this.") = SelectResult.picked ⟨"Beta"⟩ ∧
    aSelectSpeaker ⟨[⟨"Alpha"⟩, ⟨"Beta"⟩], true⟩ ⟨"Alpha"⟩ none =
      SelectResult.picked ⟨"Beta"⟩ ∧
    aSelectSpeaker ⟨[⟨"Alpha"⟩, ⟨"Beta"⟩], true⟩ ⟨"Alpha"⟩
        (some "Alpha and Beta both work") =
      SelectResult.raised "NameError: name 'e' is not defined" := by
  refine ⟨?_, ?_, ?_⟩
  · decide
  · decide
  · decide

/-- Helper for `splitComma`: split a character list at every separator
occurrence (Python `str.split` semantics: the empty string yields one empty
group, a trailing separator yields a trailing empty group). -/
def splitCharsOn (sep : Char) : List Char → List (List Char)
  | [] => [[]]
  | c :: rest =>
    let r := splitCharsOn sep rest
    if c = sep then [] :: r
    else
      match r with
      | [] => [[c]]
      | g :: gs => (c :: g) :: gs

/-- Python `s.split(",")` as used on `rely` strings ("1,2,3"). -/
def splitComma (s : String) : List String :=
  (splitCharsOn ',' s.toList).map (fun l => String.mk l)

/-- Numeric value of a decimal digit string (`none` when the string is
empty or holds a non-digit), used as the taskNumber sort key. -/
def natOfNumStr (s : String) : Option Nat :=
  if s.toList ≠ [] ∧ s.toList.all (fun c => c.isDigit) then
    some (s.toList.foldl (fun n c => n * 10 + (c.toNat - 48)) 0)
  else none

/-- Modelled from the spec: the memory-layer `listByConversation`
(`plans_memory.get_by_conv_id` of the `GptsMemory` plan store, not among
the provided files); per spec section 4.1 it returns the conversation's
subtasks, as both in-src backends do for a truthy id. -/
def plansGetByConvId (store : List GptsPlan) (convId : String) :
    List GptsPlan :=
  store.filter (fun p => p.conv_id == convId)

/-- Modelled from the spec: the memory-layer `listByConversationAndNumbers`
(`plans_memory.get_by_conv_id_and_num`, not among the provided files); per
spec section 4.1 it returns the conversation's subtasks whose task number
is among `taskNums` (the scheduler passes the comma-split `rely` strings),
in store order. -/
def plansGetByConvIdAndNum (store : List GptsPlan) (convId : String)
    (taskNums : List String) : List GptsPlan :=
  store.filter (fun p =>
    p.conv_id == convId && taskNums.any (fun n => p.sub_task_num == some n))

/-- Is the subtask eligible for `listTodo` under the spec's intended
semantics (status TODO or RETRYING)? -/
def todoOrRetry (p : GptsPlan) : Bool :=
  p.state == some Status.TODO || p.state == some Status.RETRYING

/-- The taskNumber sort key: the numeric value of `sub_task_num` (the SQL
backend orders by the Integer `sub_task_num` column; a missing or
non-numeric number sorts first). -/
def planKey (p : GptsPlan) : Nat :=
  (natOfNumStr (p.sub_task_num.getD "")).getD 0

/-- Modelled from the spec: the memory-layer `listTodo`
(`plans_memory.get_todo_plans`, not among the provided files) with the
spec's intended semantics — the conversation's subtasks whose status is
TODO or RETRYING, ordered by taskNumber ascending (the two in-src backends
deviate; see the C2 theorem). -/
def listTodoSpec (store : List GptsPlan) (convId : String) : List GptsPlan :=
  List.insertionSort (fun a b => planKey a ≤ planKey b)
    (store.filter (fun p => p.conv_id == convId && todoOrRetry p))

/-- The subtask `PlanChatManager.a_run_chat` dispatches: `todo_plans[0]`,
the head of `listTodo` — the task handed to `a_select_speaker` and sent to
the chosen agent.  No dependency check is performed anywhere on the path. -/
def selectedTask (store : List GptsPlan) (convId : String) : Option GptsPlan :=
  (listTodoSpec store convId).head?

/-- The dependency numbers of a subtask as resolved at dispatch time:
`now_plan.rely.split(",")`. -/
def relyNums (p : GptsPlan) : List String :=
  splitComma (p.rely.getD "")

/-- Effect of `PlanChatManager.a_process_rely_message` on the chosen
executor: the `(role, content)` turns appended to its short-term context
and the new value of `dialogue_memory_rounds` (`none` = left unchanged). -/
structure RelyEffect where
  appended : List (String × Option String)
  rounds : Option Nat
  deriving DecidableEq, Repr

/-- `PlanChatManager.a_process_rely_message`: when `now_plan.rely` is a
non-empty string, split it on commas, fetch the referenced subtasks of the
conversation, and — only when at least one was fetched — append each
fetched task's content as a user turn and its stored result as an
assistant turn, then set `dialogue_memory_rounds` to
`fetchedCount * 2 + 2`.  With an absent/empty `rely`, or when nothing was
fetched, nothing is appended and the window is left unchanged. -/
def aProcessRelyMessage (store : List GptsPlan) (convId : String)
    (nowPlan : GptsPlan) : RelyEffect :=
  match nowPlan.rely with
  | some relyStr =>
    if relyStr = "" then ⟨[], none⟩
    else
      let relyTasks := plansGetByConvIdAndNum store convId (splitComma relyStr)
      if relyTasks = [] then ⟨[], none⟩
      else
        ⟨(relyTasks.map (fun t =>
            [("user", t.sub_task_content), ("assistant", t.result)])).flatten,
         some (relyTasks.length * 2 + 2)⟩
  | none => ⟨[], none⟩

/-- C8 counterexample: a subtask with the non-empty dependency list "5" is
processed while the store holds no task numbered 5 for the conversation:
nothing is appended AND `dialogue_memory_rounds` is left unset (`none`),
refuting "then sets the executor's working context window to exactly
2*dependencyCount + 2 turns" — the window is only ever set when at least
one referenced subtask is actually fetched. -/
theorem c8_missing_dep_window_not_set :
    ({ conv_id := "c", sub_task_num := some "2", state := some "todo",
       rely := some "5" } : GptsPlan).rely = some "5" ∧
    ("5" : String) ≠ "" ∧
    aProcessRelyMessage
      [{ conv_id := "c", sub_task_num := some "1", state := some "complete" }]
      "c"
      { conv_id := "c", sub_task_num := some "2", state := some "todo",
        rely := some "5" } = ⟨[], none⟩ := by
  refine ⟨rfl, by decide, ?_⟩
  decide

/-- C8 (amended): before dispatching a subtask whose `rely` string is
non-empty, the scheduler splits it on commas and fetches the referenced
subtasks of the conversation; when at least one subtask is fetched, it
appends — for each fetched dependency in store order — that task's content
as a user turn and its stored result as an assistant turn, and sets the
executor's context window to exactly 2*fetchedCount + 2 turns, where
fetchedCount counts the fetched dependencies (which may be fewer than the
numbers listed); every fetched task belongs to the conversation and bears
one of the listed numbers.  When nothing is fetched, context and window are
left unchanged (see the counterexample). -/
theorem c8_rely_injection (store : List GptsPlan) (convId : String)
    (nowPlan : GptsPlan) (relyStr : String)
    (hr : nowPlan.rely = some relyStr) (hne : relyStr ≠ "")
    (hf : plansGetByConvIdAndNum store convId (splitComma relyStr) ≠ []) :
    aProcessRelyMessage store convId nowPlan =
      ⟨((plansGetByConvIdAndNum store convId (splitComma relyStr)).map
          (fun t => [("user", t.sub_task_content), ("assistant", t.result)])).flatten,
       some ((plansGetByConvIdAndNum store convId (splitComma relyStr)).length * 2 + 2)⟩ ∧
    ∀ t ∈ plansGetByConvIdAndNum store convId (splitComma relyStr),
      t.conv_id = convId ∧ ∃ n ∈ splitComma relyStr, t.sub_task_num = some n := by
  constructor
  · simp [aProcessRelyMessage, hr, hne, hf]
  · intro t ht
    have hmem := List.mem_filter.mp ht
    have hpred := hmem.2
    simp only [Bool.and_eq_true, beq_iff_eq, List.any_eq_true] at hpred
    exact ⟨hpred.1, hpred.2⟩

/-- C8 witness: with two completed dependencies "1,2" in the store, the
four turns are injected in order and the window becomes 2*2 + 2 = 6. -/
theorem c8_rely_injection_witness :
    aProcessRelyMessage
      [{ conv_id := "c", sub_task_num := some "1",
         sub_task_content := some "t1", state := some "complete",
         result := some "r1" },
       { conv_id := "c", sub_task_num := some "2",
         sub_task_content := some "t2", state := some "complete",
         result := some "r2" }]
      "c"
      { conv_id := "c", sub_task_num := some "3", state := some "todo",
        rely := some "1,2" } =
    ⟨[("user", some "t1"), ("assistant", some "r1"),
      ("user", some "t2"), ("assistant", some "r2")], some 6⟩ := by
  have h := (c8_rely_injection
    [{ conv_id := "c", sub_task_num := some "1",
       sub_task_content := some "t1", state := some "complete",
       result := some "r1" },
     { conv_id := "c", sub_task_num := some "2",
       sub_task_content := some "t2", state := some "complete",
       result := some "r2" }]
    "c"
    { conv_id := "c", sub_task_num := some "3", state := some "todo",
      rely := some "1,2" }
    "1,2" rfl (by decide) (by decide)).1
  rw [h]
  decide

/-- The message side-channel context consumed by
`PlanChatManager.a_generate_reply` (`context.get("plan_task_num")`). -/
structure MsgContext where
  plan_task_num : Option String := none
  deriving DecidableEq, Repr

/-- An executor's action report `{is_exe_success, content}`
(`content` read with `action_report.get("content", "")`). -/
structure ActionReport where
  is_exe_success : Bool
  content : String := ""
  deriving DecidableEq, Repr

/-- A plan-store mutation issued by `a_generate_reply`, recorded with the
positional arguments of the source call: `complete_task(num, result)` or
`update_task(num, state, retry, agent, sixthArg)` — `sixthArg` is the
sixth positional argument of the Python call, which binds to the `model`
parameter of both in-src `update_task` signatures. -/
inductive StoreCall where
  | complete (taskNum : String) (result : String)
  | update (taskNum : String) (state : String) (retry : Nat)
           (agent : String) (sixthArg : String)
  deriving DecidableEq, Repr

/-- Outcome of `PlanChatManager.a_generate_reply`'s plan-state handling:
the store call issued (if any) together with whether the goal-satisfaction
verification `a_check_plan_expected` was invoked, or an uncaught Python
exception. -/
inductive ReplyOutcome where
  | calls (call : Option StoreCall) (ranCheck : Bool)
  | raised (msg : String)
  deriving DecidableEq, Repr

/-- The plan-state handling of `PlanChatManager.a_generate_reply`.  Inputs:
the plan store, the conversation id, the inbound message's `context` and
`action_report`, the strict-boolean verdict of the verification model call
(`checkSucc`, consumed only if verification runs), and the sender's name.
With a truthy `plan_task_num` and an action report present, the
conversation's plans are fetched and the matching one (`run_plan`) located;
`is_exe_success = true` runs verification and issues
`complete_task(num, report.content)` on success or
`update_task(num, RUNNING, retry+1, sender, "plan result check faild")` on
failure; `is_exe_success = false` issues
`update_task(num, RUNNING, retry+1, sender, "")` without verification.
When no plan matches, the source dereferences `run_plan = None` and raises
`AttributeError`. -/
def aGenerateReply (store : List GptsPlan) (convId : String)
    (context : Option MsgContext) (actionReport : Option ActionReport)
    (checkSucc : Bool) (senderName : String) : ReplyOutcome :=
  match context with
  | none => ReplyOutcome.calls none false
  | some ctx =>
    match ctx.plan_task_num, actionReport with
    | some num, some report =>
      if num = "" then ReplyOutcome.calls none false
      else
        match (plansGetByConvId store convId).find?
            (fun p => p.sub_task_num == some num) with
        | some runPlan =>
          if report.is_exe_success then
            if checkSucc then
              ReplyOutcome.calls (some (StoreCall.complete num report.content)) true
            else
              ReplyOutcome.calls
                (some (StoreCall.update num Status.RUNNING
                  (runPlan.retry_times + 1) senderName
                  "plan result check faild")) true
          else
            ReplyOutcome.calls
              (some (StoreCall.update num Status.RUNNING
                (runPlan.retry_times + 1) senderName "")) false
        | none => ReplyOutcome.raised "AttributeError: 'NoneType' object"
    | _, _ => ReplyOutcome.calls none false

/-- Modelled from the spec: applying an issued store call to the
memory-layer plan store (section 4.1's `complete`/`update` contract, with
the sixth positional argument binding to the model field exactly as in
both in-src `update_task` signatures). -/
def applyStoreCall (store : List GptsPlan) (convId : String) :
    StoreCall → List GptsPlan
  | StoreCall.complete num result =>
      store.map fun p =>
        if p.conv_id = convId ∧ p.sub_task_num = some num then
          { p with state := some Status.COMPLETE, result := some result }
        else p
  | StoreCall.update num st retry agent sixth =>
      store.map fun p =>
        if p.conv_id = convId ∧ p.sub_task_num = some num then
          { p with state := some st, retry_times := retry,
                   sub_task_agent := some agent, agent_model := some sixth }
        else p

/-- C4 counterexample: with a stored plan (task "1", retry 0) and a
successful execution report whose verification verdict is negative, the
handler issues `update_task("1", RUNNING, 1, "Worker", s)` with
`s = "plan result check faild"` — not the claimed string
"plan result check failed". -/
theorem c4_check_failed_string_mismatch :
    aGenerateReply
        [{ conv_id := "c", sub_task_num := some "1", retry_times := 0,
           state := some "running" }]
        "c" (some { plan_task_num := some "1" })
        (some { is_exe_success := true, content := "out" }) false "Worker" =
      ReplyOutcome.calls
        (some (StoreCall.update "1" Status.RUNNING 1 "Worker"
          "plan result check faild")) true ∧
    aGenerateReply
        [{ conv_id := "c", sub_task_num := some "1", retry_times := 0,
           state := some "running" }]
        "c" (some { plan_task_num := some "1" })
        (some { is_exe_success := true, content := "out" }) false "Worker" ≠
      ReplyOutcome.calls
        (some (StoreCall.update "1" Status.RUNNING 1 "Worker"
          "plan result check failed")) true := by
  refine ⟨by decide, by decide⟩

/-- C4 (amended): for every inbound reply carrying a truthy plan task
number and an action report, with `run_plan` the conversation's matching
subtask: `is_exe_success = true` runs verification — on success the
handler calls `complete_task(num, report.content)`, on failure it calls
`update_task(num, RUNNING, retry+1, sender, s)` with the sixth positional
argument `s = "plan result check faild"` (the source's literal); and
`is_exe_success = false` calls `update_task(num, RUNNING, retry+1, sender,
"")` without running verification (`ranCheck = false`). -/
theorem c4_reply_dispatch (store : List GptsPlan)
    (convId num senderName : String) (report : ActionReport)
    (checkSucc : Bool) (runPlan : GptsPlan) (hnum : num ≠ "")
    (hfind : (plansGetByConvId store convId).find?
      (fun p => p.sub_task_num == some num) = some runPlan) :
    aGenerateReply store convId (some { plan_task_num := some num })
        (some report) checkSucc senderName =
      if report.is_exe_success then
        if checkSucc then
          ReplyOutcome.calls (some (StoreCall.complete num report.content)) true
        else
          ReplyOutcome.calls
            (some (StoreCall.update num Status.RUNNING
              (runPlan.retry_times + 1) senderName
              "plan result check faild")) true
      else
        ReplyOutcome.calls
          (some (StoreCall.update num Status.RUNNING
            (runPlan.retry_times + 1) senderName "")) false := by
  simp only [aGenerateReply, hfind, if_neg hnum]

/-- C4 witness: the three branches at a concrete store — verified success
completes with the report content, failed verification issues the update
with the source's literal, failed execution issues the empty-string update
with no verification. -/
theorem c4_reply_dispatch_witness :
    aGenerateReply
        [{ conv_id := "c", sub_task_num := some "1", retry_times := 2,
           state := some "running" }]
        "c" (some { plan_task_num := some "1" })
        (some { is_exe_success := false, content := "boom" }) true "W" =
      ReplyOutcome.calls
        (some (StoreCall.update "1" Status.RUNNING 3 "W" "")) false := by
  have h := c4_reply_dispatch
    [{ conv_id := "c", sub_task_num := some "1", retry_times := 2,
       state := some "running" }]
    "c" "1" "W" { is_exe_success := false, content := "boom" } true
    { conv_id := "c", sub_task_num := some "1", retry_times := 2,
      state := some "running" }
    (by decide) (by decide)
  rw [h]
  decide

/-- Membership in the intended `listTodo` result: exactly the
conversation's TODO/RETRYING subtasks. -/
theorem mem_listTodoSpec {store : List GptsPlan} {convId : String}
    {q : GptsPlan} :
    q ∈ listTodoSpec store convId ↔
      q ∈ store ∧ q.conv_id = convId ∧ todoOrRetry q = true := by
  unfold listTodoSpec
  rw [List.mem_insertionSort, List.mem_filter]
  simp [Bool.and_eq_true, beq_iff_eq, and_assoc]

/-- C3 counterexample: task "1" already has `retry_times = 5` exceeding
`max_retry_times = 1`; when its executor reports `is_exe_success = false`,
the handler issues `update_task("1", RUNNING, 6, ...)` — status RUNNING,
not FAILED — and after applying the update the stored state is "running",
never "failed": no code path compares the retry count to the budget or
writes FAILED. -/
theorem c3_no_failed_transition :
    ({ conv_id := "c", sub_task_num := some "1", retry_times := 5,
       max_retry_times := 1, state := some "running" } : GptsPlan).max_retry_times <
      ({ conv_id := "c", sub_task_num := some "1", retry_times := 5,
         max_retry_times := 1, state := some "running" } : GptsPlan).retry_times ∧
    aGenerateReply
        [{ conv_id := "c", sub_task_num := some "1", retry_times := 5,
           max_retry_times := 1, state := some "running" }]
        "c" (some { plan_task_num := some "1" })
        (some { is_exe_success := false }) false "W" =
      ReplyOutcome.calls
        (some (StoreCall.update "1" Status.RUNNING 6 "W" "")) false ∧
    (applyStoreCall
        [{ conv_id := "c", sub_task_num := some "1", retry_times := 5,
           max_retry_times := 1, state := some "running" }]
        "c" (StoreCall.update "1" Status.RUNNING 6 "W" "")).map
      (fun p => p.state) = [some "running"] ∧
    some Status.RUNNING ≠ some Status.FAILED := by
  refine ⟨by decide, by decide, by decide, by decide⟩

/-- C3 (amended): when a subtask's `retry_times` already exceeds its
`max_retry_times` and its executor reports failure, the scheduler does NOT
set the status to FAILED: it issues `update_task(num, RUNNING, retry+1,
sender, "")`; in the updated store the subtask's status is RUNNING (and
never FAILED), and since RUNNING is neither TODO nor RETRYING the subtask
is no longer returned by `listTodo` — the loop advances past it (it is
also never retried again, and no FAILED transition exists anywhere). -/
theorem c3_retry_exceeded_running (store : List GptsPlan)
    (convId num senderName : String) (report : ActionReport)
    (checkSucc : Bool) (runPlan : GptsPlan) (hnum : num ≠ "")
    (hfind : (plansGetByConvId store convId).find?
      (fun p => p.sub_task_num == some num) = some runPlan)
    (_hexceed : runPlan.max_retry_times < runPlan.retry_times)
    (hfail : report.is_exe_success = false) :
    aGenerateReply store convId (some { plan_task_num := some num })
        (some report) checkSucc senderName =
      ReplyOutcome.calls
        (some (StoreCall.update num Status.RUNNING
          (runPlan.retry_times + 1) senderName "")) false ∧
    (∀ q ∈ applyStoreCall store convId
        (StoreCall.update num Status.RUNNING
          (runPlan.retry_times + 1) senderName ""),
      q.conv_id = convId → q.sub_task_num = some num →
        q.state = some Status.RUNNING ∧ q.state ≠ some Status.FAILED) ∧
    (∀ q ∈ listTodoSpec
        (applyStoreCall store convId
          (StoreCall.update num Status.RUNNING
            (runPlan.retry_times + 1) senderName "")) convId,
      q.sub_task_num ≠ some num) := by
  refine ⟨?_, ?_, ?_⟩
  · simp only [aGenerateReply, hfind, if_neg hnum, hfail, Bool.false_eq_true,
      if_false]
  · intro q hq hconv hnumq
    rcases List.mem_map.mp hq with ⟨p, hp, hpq⟩
    by_cases hmatch : p.conv_id = convId ∧ p.sub_task_num = some num
    · rw [if_pos hmatch] at hpq
      subst hpq
      refine ⟨rfl, by simp [Status.RUNNING, Status.FAILED]⟩
    · rw [if_neg hmatch] at hpq
      subst hpq
      exact absurd ⟨hconv, hnumq⟩ hmatch
  · intro q hq hnumq
    rcases mem_listTodoSpec.mp hq with ⟨hqmem, hqconv, hqtod⟩
    rcases List.mem_map.mp hqmem with ⟨p, hp, hpq⟩
    by_cases hmatch : p.conv_id = convId ∧ p.sub_task_num = some num
    · rw [if_pos hmatch] at hpq
      subst hpq
      simp only [todoOrRetry, Status.TODO, Status.RETRYING, Status.RUNNING,
        Bool.or_eq_true, beq_iff_eq] at hqtod
      rcases hqtod with h | h
      · exact absurd h (by decide)
      · exact absurd h (by decide)
    · rw [if_neg hmatch] at hpq
      subst hpq
      exact absurd ⟨hqconv, hnumq⟩ hmatch

/-- C3 witness: a concrete over-budget task (retry 5, budget 1) whose
failure report yields the RUNNING update, the RUNNING-not-FAILED state,
and an empty `listTodo` afterwards. -/
theorem c3_retry_exceeded_running_witness :
    aGenerateReply
        [{ conv_id := "c", sub_task_num := some "1", retry_times := 5,
           max_retry_times := 1, state := some "running" }]
        "c" (some { plan_task_num := some "1" })
        (some { is_exe_success := false }) false "W" =
      ReplyOutcome.calls
        (some (StoreCall.update "1" Status.RUNNING 6 "W" "")) false ∧
    (∀ q ∈ listTodoSpec
        (applyStoreCall
          [{ conv_id := "c", sub_task_num := some "1", retry_times := 5,
             max_retry_times := 1, state := some "running" }]
          "c" (StoreCall.update "1" Status.RUNNING 6 "W" "")) "c",
      q.sub_task_num ≠ some "1") := by
  have h := c3_retry_exceeded_running
    [{ conv_id := "c", sub_task_num := some "1", retry_times := 5,
       max_retry_times := 1, state := some "running" }]
    "c" "1" "W" { is_exe_success := false } false
    { conv_id := "c", sub_task_num := some "1", retry_times := 5,
      max_retry_times := 1, state := some "running" }
    (by decide) (by decide) (by decide) (by decide)
  exact ⟨h.1, h.2.2⟩

instance : IsTotal GptsPlan (fun a b => planKey a ≤ planKey b) :=
  ⟨fun a b => Nat.le_total (planKey a) (planKey b)⟩

instance : IsTrans GptsPlan (fun a b => planKey a ≤ planKey b) :=
  ⟨fun _ _ _ hab hbc => Nat.le_trans hab hbc⟩

/-- C1 counterexample: with plan { task 1 FAILED, task 2 TODO relying on
"1" } the scheduler's dispatch selection (`todo_plans[0]`) picks task 2 and
hands it to the speaker selector although its referenced task 1 is FAILED,
not COMPLETE — `a_run_chat` performs no dependency-status check at all. -/
theorem c1_dispatch_ignores_deps :
    selectedTask
        [{ conv_id := "c", sub_task_num := some "1", state := some "failed",
           rely := some "" },
         { conv_id := "c", sub_task_num := some "2", state := some "todo",
           rely := some "1" }] "c" =
      some { conv_id := "c", sub_task_num := some "2", state := some "todo",
             rely := some "1" } ∧
    relyNums { conv_id := "c", sub_task_num := some "2",
               state := some "todo", rely := some "1" } = ["1"] ∧
    ({ conv_id := "c", sub_task_num := some "1", state := some "failed",
       rely := some "" } : GptsPlan) ∈
      [({ conv_id := "c", sub_task_num := some "1", state := some "failed",
          rely := some "" } : GptsPlan),
       { conv_id := "c", sub_task_num := some "2", state := some "todo",
         rely := some "1" }] ∧
    ({ conv_id := "c", sub_task_num := some "1", state := some "failed",
       rely := some "" } : GptsPlan).sub_task_num = some "1" ∧
    ({ conv_id := "c", sub_task_num := some "1", state := some "failed",
       rely := some "" } : GptsPlan).state ≠ some Status.COMPLETE := by
  refine ⟨by decide, by decide, by decide, by decide, by decide⟩

/-- C1 (amended): the scheduler dispatches the TODO/RETRYING subtask of
the conversation with the least taskNumber; consequently every stored
subtask of the conversation with a strictly smaller taskNumber than the
dispatched one — in particular every dependency with a smaller number — is
not TODO or RETRYING at dispatch time.  (It may still be RUNNING or FAILED
rather than COMPLETE, and a dependency with a larger number may still be
TODO: dependency completion itself is not enforced — see the
counterexample.) -/
theorem c1_dispatch_min_task_number (store : List GptsPlan)
    (convId : String) (t : GptsPlan)
    (hsel : selectedTask store convId = some t) :
    (∀ d ∈ store, d.conv_id = convId → todoOrRetry d = true →
      planKey t ≤ planKey d) ∧
    (∀ d ∈ store, d.conv_id = convId → planKey d < planKey t →
      todoOrRetry d = false) := by
  have hmain : ∀ d ∈ store, d.conv_id = convId → todoOrRetry d = true →
      planKey t ≤ planKey d := by
    intro d hd hconv htod
    have hdi : d ∈ listTodoSpec store convId :=
      mem_listTodoSpec.mpr ⟨hd, hconv, htod⟩
    unfold selectedTask at hsel
    cases hsort : listTodoSpec store convId with
    | nil =>
      rw [hsort] at hsel
      cases hsel
    | cons a rest =>
      rw [hsort] at hsel hdi
      have ha : a = t := by
        simpa using hsel
      have hsorted : List.Sorted (fun a b => planKey a ≤ planKey b)
          (a :: rest) := by
        rw [← hsort]
        exact List.sorted_insertionSort _ _
      subst ha
      rcases List.mem_cons.mp hdi with h | h
      · subst h
        exact Nat.le_refl _
      · exact List.rel_of_sorted_cons hsorted d h
  refine ⟨hmain, ?_⟩
  intro d hd hconv hlt
  cases hh : todoOrRetry d
  · rfl
  · exact absurd (hmain d hd hconv hh) (Nat.not_le.mpr hlt)

/-- C1 witness: in a concrete plan { task 1 RETRYING, task 2 TODO } the
dispatched task is task 1 and both conjuncts hold at task 2. -/
theorem c1_dispatch_min_task_number_witness :
    planKey { conv_id := "c", sub_task_num := some "1",
              state := some "retrying" } ≤
      planKey { conv_id := "c", sub_task_num := some "2",
                state := some "todo" } := by
  have h := (c1_dispatch_min_task_number
    [{ conv_id := "c", sub_task_num := some "2", state := some "todo" },
     { conv_id := "c", sub_task_num := some "1", state := some "retrying" }]
    "c"
    { conv_id := "c", sub_task_num := some "1", state := some "retrying" }
    (by decide)).1
  exact h { conv_id := "c", sub_task_num := some "2", state := some "todo" }
    (by decide) (by decide) (by decide)

/-- C9 counterexample: the in-memory backend's `update_task` has no result
parameter — calling it with the result string in the sixth positional slot
(which binds to `model`) leaves the matching row's `result` field at its
old value "orig" instead of setting it to "x", refuting the claim that
`update` changes the result field in every acceptable backend. -/
theorem c9_mem_update_result_untouched :
    (DefaultGptsPlansMemory.update_task
        [{ conv_id := "c", sub_task_num := some "1", state := some "todo",
           result := some "orig" }]
        "c" (some "1") "running" 1 (some "A") (some "x")).map
      (fun p => p.result) = [some "orig"] ∧
    (some "orig" : Option String) ≠ some "x" := by
  refine ⟨by decide, by decide⟩

/-- C9 (amended): `update_task(conversationId, taskNumber, status,
retryCount, agent, ...)` changes exactly the status, agent, model and
retry-count fields — plus, in the SQL backend only, the result field — of
each subtask matching `(conversationId, taskNumber)`, leaving that
subtask's other fields (identifiers, title, content, resource, rely,
maxRetries) and every non-matching row unchanged; the in-memory backend
additionally leaves `result` unchanged.  (Timestamp columns are outside
the embedding.) -/
theorem c9_update_task_frame :
    (∀ (store : List GptsPlansEntity) (conv : String) (num : Nat)
        (st : String) (rt : Nat) (ag md rs : Option String) (i : Nat)
        (r : GptsPlansEntity), store.get? i = some r →
      ∃ q, (GptsPlansDao.update_task store conv num st rt ag md rs).get? i =
            some q ∧
        ((r.conv_id = conv ∧ r.sub_task_num = num) →
          q.state = some st ∧ q.sub_task_agent = ag ∧ q.agent_model = md ∧
          q.retry_times = rt ∧ q.result = rs ∧
          q.id = r.id ∧ q.conv_id = r.conv_id ∧
          q.sub_task_num = r.sub_task_num ∧
          q.sub_task_title = r.sub_task_title ∧
          q.sub_task_content = r.sub_task_content ∧
          q.resource_name = r.resource_name ∧ q.rely = r.rely ∧
          q.max_retry_times = r.max_retry_times) ∧
        (¬(r.conv_id = conv ∧ r.sub_task_num = num) → q = r)) ∧
    (∀ (store : List GptsPlan) (conv : String) (num : Option String)
        (st : String) (rt : Nat) (ag md : Option String) (i : Nat)
        (p : GptsPlan), store.get? i = some p →
      ∃ q, (DefaultGptsPlansMemory.update_task store conv num st rt ag md).get? i =
            some q ∧
        ((p.conv_id = conv ∧ p.sub_task_num = num) →
          q.state = some st ∧ q.retry_times = rt ∧ q.sub_task_agent = ag ∧
          q.agent_model = md ∧
          q.result = p.result ∧ q.conv_id = p.conv_id ∧
          q.sub_task_num = p.sub_task_num ∧
          q.sub_task_title = p.sub_task_title ∧
          q.sub_task_content = p.sub_task_content ∧
          q.resource_name = p.resource_name ∧ q.rely = p.rely ∧
          q.max_retry_times = p.max_retry_times) ∧
        (¬(p.conv_id = conv ∧ p.sub_task_num = num) → q = p)) := by
  constructor
  · intro store conv num st rt ag md rs i r hr
    refine ⟨if r.conv_id = conv ∧ r.sub_task_num = num then
      { r with state := some st, sub_task_agent := ag, agent_model := md,
               retry_times := rt, result := rs } else r, ?_, ?_, ?_⟩
    · unfold GptsPlansDao.update_task
      rw [List.get?_map, hr]
      rfl
    · intro hm
      rw [if_pos hm]
      exact ⟨rfl, rfl, rfl, rfl, rfl, rfl, rfl, rfl, rfl, rfl, rfl, rfl, rfl⟩
    · intro hm
      rw [if_neg hm]
  · intro store conv num st rt ag md i p hp
    refine ⟨if p.conv_id = conv ∧ p.sub_task_num = num then
      { p with state := some st, retry_times := rt, sub_task_agent := ag,
               agent_model := md } else p, ?_, ?_, ?_⟩
    · unfold DefaultGptsPlansMemory.update_task
      rw [List.get?_map, hp]
      rfl
    · intro hm
      rw [if_pos hm]
      exact ⟨rfl, rfl, rfl, rfl, rfl, rfl, rfl, rfl, rfl, rfl, rfl, rfl⟩
    · intro hm
      rw [if_neg hm]

/-- C9 witness: at a concrete two-row SQL store the matching row's five
fields are updated and the non-matching row is returned unchanged. -/
theorem c9_update_task_frame_witness :
    ∃ q, (GptsPlansDao.update_task
        [{ id := 1, conv_id := "c", sub_task_num := 1,
           sub_task_title := "t", result := some "old" },
         { id := 2, conv_id := "c", sub_task_num := 2 }]
        "c" 1 "running" 3 (some "A") (some "M") (some "res")).get? 0 =
      some q ∧
      q.state = some "running" ∧ q.result = some "res" ∧
      q.sub_task_title = "t" := by
  rcases (c9_update_task_frame.1
    [{ id := 1, conv_id := "c", sub_task_num := 1,
       sub_task_title := "t", result := some "old" },
     { id := 2, conv_id := "c", sub_task_num := 2 }]
    "c" 1 "running" 3 (some "A") (some "M") (some "res") 0
    { id := 1, conv_id := "c", sub_task_num := 1,
      sub_task_title := "t", result := some "old" } rfl)
    with ⟨q, hq, hpos, _⟩
  rcases hpos ⟨rfl, rfl⟩ with ⟨h1, _, _, _, h5, _, _, _, h9, _⟩
  exact ⟨q, hq, h1, h5, h9⟩
